import Mathlib

/-!
Shallow embedding of the JenkinsTui repository (a Go terminal client for a
Jenkins server), covering the parts of the code that the verified claims
talk about:

* package `api` — status conversions (`GetStatusFromResult`), the per-job
  color-token mapping performed inside `JenkinsClient.GetJobs`, and the data
  records exchanged with the server;
* package `config` — the configuration records read by the service;
* package `components` — the view components of the TUI, including the build
  log line classification performed by `colorizeLogOutput`;
* package `tui` — the `JenkinsService` facade (`Connect`, the guarded remote
  operations, `ShouldRefresh`) and the application controller `Model.Update`.

Conventions of the embedding:

* Go errors are `Option String` (the message) or `Except String α`;
* `time.Time` and `time.Duration` values are `Int` nanoseconds; functions that
  read the wall clock (`time.Now`, `time.Since`) take an explicit `now : Int`;
* network calls performed by `api.JenkinsClient` are outside the repository
  boundary that the claims describe, so a facade operation takes the
  hypothetical client response as an argument; a result that does not depend
  on that argument models "the network layer is not contacted";
* the bubbles `list.Model` and `viewport.Model` are external library state;
  lists are modelled by their item collection plus cursor, with the selected
  item accessor `items.get? cursor`, and library-internal cursor/filter
  bookkeeping is not modelled (no claim depends on it);
* `lipgloss` styling is modelled by the color codes the source attaches
  (`Option String`, `none` for unstyled), not by ANSI escape strings.
-/

namespace JenkinsTui

/-! ## Go `strings` primitives over character lists

`strings.Contains`, `strings.HasPrefix` and `strings.ToLower` from the Go
standard library, embedded structurally so that concrete evaluations reduce
in the kernel. -/

/-- Embeds Go `strings.HasPrefix` on exploded strings: `isPrefixChars p s`
is true when `p` is a prefix of `s`. -/
def isPrefixChars : List Char → List Char → Bool
  | [], _ => true
  | _ :: _, [] => false
  | p :: ps, c :: cs => p == c && isPrefixChars ps cs

/-- Embeds Go `strings.Contains` on exploded strings: true when `pat` occurs
as a contiguous substring of the second argument. -/
def containsChars (pat : List Char) : List Char → Bool
  | [] => isPrefixChars pat []
  | c :: cs => isPrefixChars pat (c :: cs) || containsChars pat cs

/-- Embeds Go `strings.Contains(strings.ToLower(line), pat)` for the
(lower-case ASCII) literal patterns used by the source. -/
def strContainsLower (line : String) (pat : String) : Bool :=
  containsChars pat.data (line.data.map Char.toLower)

/-- Embeds Go `strings.HasPrefix(line, pat)`. -/
def strStartsWith (line : String) (pat : String) : Bool :=
  isPrefixChars pat.data line.data

/-- Structural core of `strings.Split(s, "\n")` on exploded strings. -/
def splitLinesChars : List Char → List (List Char)
  | [] => [[]]
  | c :: cs =>
    if c == '\n' then [] :: splitLinesChars cs
    else
      match splitLinesChars cs with
      | [] => [[c]]
      | l :: ls => (c :: l) :: ls

/-- Embeds Go `strings.Split(log, "\n")`. -/
def splitLines (s : String) : List String :=
  (splitLinesChars s.data).map String.mk

namespace api

/-! ## Package `api` (src/unnamed/part_002) -/

/-- Go `api.JobStatus` string constants (`StatusSuccess` .. `StatusUnknown`). -/
inductive JobStatus where
  | success
  | failed
  | aborted
  | running
  | waiting
  | unknown
  deriving DecidableEq, Repr

/-- Underlying string of each `api.JobStatus` constant (`JobStatus` is a Go
string type; `string(job.Status)` in the controller reads this). -/
def JobStatus.asString : JobStatus → String
  | .success => "success"
  | .failed => "failed"
  | .aborted => "aborted"
  | .running => "running"
  | .waiting => "waiting"
  | .unknown => "unknown"

/-- Embeds `api.GetStatusFromResult` (src/unnamed/part_002 lines 34–53):
converts a Jenkins result string and the `building` flag to a `JobStatus`. -/
def GetStatusFromResult (result : String) (building : Bool) : JobStatus :=
  if building then .running
  else if result = "SUCCESS" then .success
  else if result = "FAILURE" then .failed
  else if result = "ABORTED" then .aborted
  else if result = "UNSTABLE" then .failed
  else if result = "NOT_BUILT" then .waiting
  else .unknown

/-- The per-job JSON payload decoded inside `JenkinsClient.GetJobs`
(fields `name`, `url`, `color`, `description`, `_class`). -/
structure JobData where
  Name : String
  URL : String
  Color : String
  Description : String
  Class : String
  deriving DecidableEq, Repr

/-- Go `api.Job` as used by the code in src (the struct declaration itself is
in a repository file not present under src; every field below is taken from
its uses in `GetJobs` and in the controller). `Status` carries the string
literals `GetJobs` assigns ("success", "failure", "unstable", "disabled",
"aborted", "unknown"). -/
structure Job where
  Name : String
  URL : String
  Class : String
  Color : String
  Description : String
  Status : String
  InProgress : Bool
  deriving DecidableEq, Repr

/-- The per-job conversion performed inside `JenkinsClient.GetJobs`
(src/unnamed/part_002 lines 245–277): builds the `Job` record and then
switches on the color token to set `Status` and `InProgress`. -/
def jobFromData (jobData : JobData) : Job :=
  let job : Job :=
    { Name := jobData.Name
      URL := jobData.URL
      Class := jobData.Class
      Color := jobData.Color
      Description := jobData.Description
      Status := ""
      InProgress := false }
  if jobData.Color = "blue" ∨ jobData.Color = "blue_anime" then
    { job with Status := "success", InProgress := jobData.Color == "blue_anime" }
  else if jobData.Color = "red" ∨ jobData.Color = "red_anime" then
    { job with Status := "failure", InProgress := jobData.Color == "red_anime" }
  else if jobData.Color = "yellow" ∨ jobData.Color = "yellow_anime" then
    { job with Status := "unstable", InProgress := jobData.Color == "yellow_anime" }
  else if jobData.Color = "grey" ∨ jobData.Color = "grey_anime" ∨
      jobData.Color = "disabled" ∨ jobData.Color = "disabled_anime" then
    { job with Status := "disabled"
               InProgress := jobData.Color == "grey_anime" || jobData.Color == "disabled_anime" }
  else if jobData.Color = "aborted" ∨ jobData.Color = "aborted_anime" then
    { job with Status := "aborted", InProgress := jobData.Color == "aborted_anime" }
  else
    { job with Status := "unknown", InProgress := false }

/-- The conversion loop of `JenkinsClient.GetJobs` over the decoded job list
(the HTTP transport around it is outside the embedded boundary). -/
def GetJobsConvert (jobsData : List JobData) : List Job :=
  jobsData.map jobFromData

/-- Go `api.Node`bas used by `countFreeNodes` and the dashboard. -/
structure Node where
  DisplayName : String
  Online : Bool
  Idle : Bool
  deriving DecidableEq, Repr

/-- Go `api.ServerInfo` as populated by `GetServerInfo` and `Connect`.
`Uptime` is kept as raw nanoseconds (the source formats it for display). -/
structure ServerInfo where
  URL : String
  Version : String
  Mode : String
  Uptime : Int
  Connected : Bool
  Username : String
  Nodes : List Node
  deriving DecidableEq, Repr

/-- Go `api.Build` (populated with `Number`/`URL` by `GetJobDetails`; the
controller also reads `Status`, `StartTime`, `Duration`, zero-valued there). -/
structure Build where
  Number : Int
  URL : String
  Status : String
  StartTime : Int
  Duration : Int
  deriving DecidableEq, Repr

/-- Go `api.JobDetail` as populated by `JenkinsClient.GetJobDetails`. -/
structure JobDetail where
  Name : String
  URL : String
  Description : String
  Buildable : Bool
  Builds : List Build
  LastBuild : Option Build
  deriving DecidableEq, Repr

/-- Go `api.BuildDetail` as populated by `JenkinsClient.GetBuildDetails`.
`StartTime`/`Duration` are the raw millisecond values from the server;
`Parameters` is the name→value map as an association list. -/
structure BuildDetail where
  Number : Int
  URL : String
  StartTime : Int
  Duration : Int
  Building : Bool
  Result : String
  Description : String
  Parameters : List (String × String)
  deriving DecidableEq, Repr

end api

namespace components

/-! ## Package `components`: build log line classification
(src/internal/tui/components/buildlog.go lines 147–173) -/

/-- The five visual classes `colorizeLogOutput` distinguishes. -/
inductive LogLineClass where
  | error
  | warning
  | command
  | success
  | plain
  deriving DecidableEq, Repr

/-- First branch guard of `colorizeLogOutput`: the line contains "error",
"exception" or "failed" case-insensitively. -/
def errorLineMatch (line : String) : Bool :=
  strContainsLower line "error" || strContainsLower line "exception" ||
    strContainsLower line "failed"

/-- Second branch guard: the line contains "warning" case-insensitively. -/
def warningLineMatch (line : String) : Bool :=
  strContainsLower line "warning"

/-- Third branch guard: the line echoes a command (starts with "+" or ">"). -/
def commandLineMatch (line : String) : Bool :=
  strStartsWith line "+" || strStartsWith line ">"

/-- Fourth branch guard: the line contains "success", "passed" or
"completed" case-insensitively. -/
def successLineMatch (line : String) : Bool :=
  strContainsLower line "success" || strContainsLower line "passed" ||
    strContainsLower line "completed"

/-- The if/else-if cascade of `colorizeLogOutput`, one class per line;
branch order is the source's: error, warning, command, success, plain. -/
def classifyLogLine (line : String) : LogLineClass :=
  if errorLineMatch line then .error
  else if warningLineMatch line then .warning
  else if commandLineMatch line then .command
  else if successLineMatch line then .success
  else .plain

/-- The lipgloss foreground color the source attaches to each class
(196 red, 208 orange, 33 blue, 42 green; plain lines are left unstyled). -/
def classColor : LogLineClass → Option String
  | .error => some "196"
  | .warning => some "208"
  | .command => some "33"
  | .success => some "42"
  | .plain => none

/-- Embeds `colorizeLogOutput`: splits the log on newlines and tags every
line with the color of its class (styling is modelled by the color code). -/
def colorizeLogOutput (log : String) : List (String × Option String) :=
  (splitLines log).map (fun line => (line, classColor (classifyLogLine line)))

/-- Whether the guard of a given class fires on a line (`plain` is the
catch-all). Used to state the first-match-wins property of the cascade. -/
def classMatches (line : String) : LogLineClass → Bool
  | .error => errorLineMatch line
  | .warning => warningLineMatch line
  | .command => commandLineMatch line
  | .success => successLineMatch line
  | .plain => true

/-- Position of each class in the source's branch order. -/
def classRank : LogLineClass → Nat
  | .error => 0
  | .warning => 1
  | .command => 2
  | .success => 3
  | .plain => 4

/-! ## Package `components`: view components

The bubbles `list.Model` is an external library; it is modelled by its item
collection and cursor, with the `SelectedItem` accessor returning the item
under the cursor (`none` when the visible collection is empty or the cursor
is out of range, which is how an empty or filtered-to-nothing list answers). -/

/-- Abstraction of the external bubbles `list.Model`. -/
structure ListModel (α : Type) where
  items : List α
  cursor : Nat
  deriving DecidableEq, Repr

/-- The library's `SelectedItem` accessor. -/
def ListModel.selectedItem {α : Type} (l : ListModel α) : Option α :=
  l.items.get? l.cursor

/-- Go `components.JobListItem` (src/unnamed/part_000). `LastBuild` is a
`time.Time` kept as `Int` nanoseconds. -/
structure JobListItem where
  Name : String
  Status : String
  LastBuild : Int
  JobDesc : String
  URL : String
  deriving DecidableEq, Repr

/-- Go `components.JobListComponent` (src/unnamed/part_000); the `keys`
field is the static keymap and is omitted. -/
structure JobListComponent where
  list : ListModel JobListItem
  width : Int
  height : Int
  deriving DecidableEq, Repr

/-- Embeds `JobListComponent.WithJobs`: replaces the list items wholesale. -/
def JobListComponent.WithJobs (j : JobListComponent) (jobs : List JobListItem) :
    JobListComponent :=
  { j with list := { j.list with items := jobs } }

/-- Embeds `JobListComponent.GetSelected`: returns the library's selected
item, or `none` when the library reports no selection. -/
def JobListComponent.GetSelected (j : JobListComponent) : Option JobListItem :=
  j.list.selectedItem

/-- Go `components.BuildInfo` (jobdetail.go); times in `Int` (seconds for
`StartTime`, nanoseconds for `Duration`, as converted by the controller). -/
structure BuildInfo where
  Number : Int
  Status : String
  StartTime : Int
  Duration : Int
  deriving DecidableEq, Repr

/-- Go `components.Build` (jobdetail.go): the last-build info panel record. -/
structure Build where
  Number : Int
  Status : String
  StartTime : Int
  Duration : Int
  Description : String
  Parameters : List (String × String)
  deriving DecidableEq, Repr

/-- Go `components.JobDetailComponent` (jobdetail.go); the `keys` field is
omitted, and the build list is the external library abstraction. -/
structure JobDetailComponent where
  jobName : String
  jobURL : String
  description : String
  buildList : ListModel BuildInfo
  lastBuild : Option Build
  width : Int
  height : Int
  deriving DecidableEq, Repr

/-- Embeds `JobDetailComponent.WithJobDetail` (the list title it also sets
is presentation-only and not modelled). -/
def JobDetailComponent.WithJobDetail (j : JobDetailComponent)
    (name description url : String) : JobDetailComponent :=
  { j with jobName := name, description := description, jobURL := url }

/-- Embeds `JobDetailComponent.WithBuilds`: replaces the build list items. -/
def JobDetailComponent.WithBuilds (j : JobDetailComponent)
    (builds : List BuildInfo) : JobDetailComponent :=
  { j with buildList := { j.buildList with items := builds } }

/-- Embeds `JobDetailComponent.WithLastBuildInfo`. -/
def JobDetailComponent.WithLastBuildInfo (j : JobDetailComponent) (build : Build) :
    JobDetailComponent :=
  { j with lastBuild := some build }

/-- Embeds `JobDetailComponent.GetSelectedBuild`. -/
def JobDetailComponent.GetSelectedBuild (j : JobDetailComponent) : Option BuildInfo :=
  j.buildList.selectedItem

/-- Go `components.BuildLogComponent` (buildlog.go); the viewport is external
library state — its content is the function `formatLog` of the `log` field,
so only `log` and the `ready` flag are carried. -/
structure BuildLogComponent where
  jobName : String
  buildNum : Int
  log : String
  ready : Bool
  width : Int
  height : Int
  deriving DecidableEq, Repr

/-- Embeds `BuildLogComponent.WithLog` (the viewport re-render it triggers is
derived state and not carried separately). -/
def BuildLogComponent.WithLog (b : BuildLogComponent) (log : String) :
    BuildLogComponent :=
  { b with log := log }

/-- Embeds `BuildLogComponent.WithJobAndBuild`. -/
def BuildLogComponent.WithJobAndBuild (b : BuildLogComponent)
    (jobName : String) (buildNum : Int) : BuildLogComponent :=
  { b with jobName := jobName, buildNum := buildNum }

/-- Go `components.ServerInfo` (dashboard.go). `Uptime` is kept as raw
nanoseconds (the source stores the formatted display string). -/
structure ServerInfo where
  URL : String
  Version : String
  Connected : Bool
  Mode : String
  Uptime : Int
  TotalNodes : Nat
  FreeNodes : Nat
  deriving DecidableEq, Repr

/-- Go `components.DashboardComponent` (dashboard.go). -/
structure DashboardComponent where
  width : Int
  height : Int
  serverInfo : ServerInfo
  deriving DecidableEq, Repr

/-- Embeds `DashboardComponent.WithServerInfo`. -/
def DashboardComponent.WithServerInfo (d : DashboardComponent)
    (info : ServerInfo) : DashboardComponent :=
  { d with serverInfo := info }

/-- Go `components.HelpComponent`: static content, only dimensions. -/
structure HelpComponent where
  width : Int
  height : Int
  deriving DecidableEq, Repr

end components

namespace config

/-! ## Package `config` (src/unnamed/part_002, second file) -/

/-- Go `config.JenkinsServer`. -/
structure JenkinsServer where
  Name : String
  URL : String
  Username : String
  Token : String
  Proxy : String
  InsecureSkipVerify : Bool
  deriving DecidableEq, Repr

/-- Go `config.UISettings`. -/
structure UISettings where
  Theme : String
  RefreshInterval : Int
  MaxLogLines : Int
  CompactMode : Bool
  deriving DecidableEq, Repr

/-- Go `config.KeyBindings`. -/
structure KeyBindings where
  Quit : String
  Help : String
  Dashboard : String
  Jobs : String
  Builds : String
  Nodes : String
  deriving DecidableEq, Repr

/-- Go `config.Config`. -/
structure Config where
  Current : String
  JenkinsServers : List JenkinsServer
  UI : UISettings
  KeyBindings : KeyBindings
  deriving DecidableEq, Repr

/-- Go `config.Manager`; `Config` is a nilable pointer. -/
structure Manager where
  Config : Option Config
  ConfigPath : String
  deriving DecidableEq, Repr

end config

namespace tui

/-! ## Package `tui`: the `JenkinsService` facade (service.go)

The `api.JenkinsClient` performs the network calls; each facade operation
below takes the hypothetical client response (`Except String α`) as an
argument. When the guard short-circuits, the result does not depend on that
argument: the network layer is not contacted. -/

/-- Go `tui.JenkinsService` (service.go); the `client` field is the external
network client and is not part of the state. `lastRefresh` is a `time.Time`
in `Int` nanoseconds. -/
structure JenkinsService where
  config : Option config.Manager
  configPath : String
  connected : Bool
  lastError : Option String
  serverInfo : Option api.ServerInfo
  lastRefresh : Int
  deriving DecidableEq, Repr

/-- The error message every guarded operation returns when no connect has
succeeded (service.go, `fmt.Errorf("not connected to Jenkins server")`). -/
def notConnectedErr : String := "not connected to Jenkins server"

/-- Embeds `JenkinsService.Connect` (service.go lines 57–82): liveness check
via `GetServerInfo`, then best-effort node enumeration; a node failure is
stored in `lastError` only, and the connect still succeeds. -/
def JenkinsService.Connect (s : JenkinsService)
    (infoRes : Except String api.ServerInfo)
    (nodesRes : Except String (List api.Node)) (now : Int) :
    JenkinsService × Option String :=
  match infoRes with
  | .error err => ({ s with connected := false, lastError := some err }, some err)
  | .ok info =>
    match nodesRes with
    | .error err =>
      ({ s with lastError := some err, connected := true,
                serverInfo := some info, lastRefresh := now }, none)
    | .ok nodes =>
      ({ s with connected := true,
                serverInfo := some { info with Nodes := nodes },
                lastRefresh := now }, none)

/-- Embeds `JenkinsService.GetJobs` (service.go lines 111–124). -/
def JenkinsService.GetJobs (s : JenkinsService)
    (clientRes : Except String (List api.Job)) :
    JenkinsService × Except String (List api.Job) :=
  if !s.connected then (s, .error notConnectedErr)
  else
    match clientRes with
    | .error e => ({ s with lastError := some e }, .error e)
    | .ok jobs => (s, .ok jobs)

/-- Embeds `JenkinsService.GetJobDetails` (service.go lines 127–140). -/
def JenkinsService.GetJobDetails (s : JenkinsService) (jobName : String)
    (clientRes : Except String api.JobDetail) :
    JenkinsService × Except String api.JobDetail :=
  if !s.connected then (s, .error notConnectedErr)
  else
    match clientRes with
    | .error e => ({ s with lastError := some e }, .error e)
    | .ok jobDetail => (s, .ok jobDetail)

/-- Embeds `JenkinsService.GetBuildDetails` (service.go lines 143–156). -/
def JenkinsService.GetBuildDetails (s : JenkinsService) (jobName : String)
    (buildNumber : Int) (clientRes : Except String api.BuildDetail) :
    JenkinsService × Except String api.BuildDetail :=
  if !s.connected then (s, .error notConnectedErr)
  else
    match clientRes with
    | .error e => ({ s with lastError := some e }, .error e)
    | .ok buildDetail => (s, .ok buildDetail)

/-- Embeds `JenkinsService.GetBuildLog` (service.go lines 159–172). -/
def JenkinsService.GetBuildLog (s : JenkinsService) (jobName : String)
    (buildNumber : Int) (clientRes : Except String String) :
    JenkinsService × Except String String :=
  if !s.connected then (s, .error notConnectedErr)
  else
    match clientRes with
    | .error e => ({ s with lastError := some e }, .error e)
    | .ok log => (s, .ok log)

/-- Embeds `JenkinsService.TriggerBuild` (service.go lines 175–188). -/
def JenkinsService.TriggerBuild (s : JenkinsService) (jobName : String)
    (parameters : List (String × String)) (clientRes : Except String Unit) :
    JenkinsService × Option String :=
  if !s.connected then (s, some notConnectedErr)
  else
    match clientRes with
    | .error e => ({ s with lastError := some e }, some e)
    | .ok _ => (s, none)

/-- Embeds `JenkinsService.DeleteJob` (service.go lines 191–204). -/
def JenkinsService.DeleteJob (s : JenkinsService) (jobName : String)
    (clientRes : Except String Unit) : JenkinsService × Option String :=
  if !s.connected then (s, some notConnectedErr)
  else
    match clientRes with
    | .error e => ({ s with lastError := some e }, some e)
    | .ok _ => (s, none)

/-- Embeds `JenkinsService.StopBuild` (service.go lines 207–220). -/
def JenkinsService.StopBuild (s : JenkinsService) (jobName : String)
    (buildNumber : Int) (clientRes : Except String Unit) :
    JenkinsService × Option String :=
  if !s.connected then (s, some notConnectedErr)
  else
    match clientRes with
    | .error e => ({ s with lastError := some e }, some e)
    | .ok _ => (s, none)

/-- Embeds `JenkinsService.ShouldRefresh` (service.go lines 233–244):
`time.Since(s.lastRefresh) > time.Duration(refreshInterval)*time.Second`,
with the interval forced to 30 when the configured value is ≤ 0, and an
unconditional `true` when no config is loaded. Durations in nanoseconds. -/
def JenkinsService.ShouldRefresh (s : JenkinsService) (now : Int) : Bool :=
  match s.config with
  | none => true
  | some mgr =>
    match mgr.Config with
    | none => true
    | some cfg =>
      let refreshInterval :=
        if cfg.UI.RefreshInterval ≤ 0 then 30 else cfg.UI.RefreshInterval
      now - s.lastRefresh > refreshInterval * 1000000000

/-! ## Package `tui`: the application controller (app.go)

`tea.Cmd` values are descriptors of the asynchronous operation the returned
closure would perform (`Connect`, `FetchJobs`, …); `tea.Batch`/nil-cmd become
a list of descriptors (nil = `[]`). The Go message structs each carry a value
and an `err` field of which the producing command sets exactly one, and
`Update` branches on `err != nil` first, so every message is embedded as an
ok/err constructor pair. `time.Now` is the explicit `now` argument (`Int`
nanoseconds). -/

/-- Go `tui.ViewType` (app.go lines 16–24). -/
inductive ViewType where
  | DashboardView
  | JobListView
  | JobDetailView
  | BuildLogView
  | HelpView
  deriving DecidableEq, Repr

/-- Descriptors for the `tea.Cmd` closures `Update` can return. -/
inductive Cmd where
  | quit
  | connect
  | fetchJobs
  | fetchJobDetail (jobName : String)
  | fetchBuildDetail (jobName : String) (buildNumber : Int)
  | fetchBuildLog (jobName : String) (buildNumber : Int)
  | refreshTick (d : Int)
  deriving DecidableEq, Repr

/-- The `tea.Msg` values `Update` handles, with each Go result struct split
into its ok/err cases as produced by the fetch commands in app.go. -/
inductive Msg where
  | connectOk (serverInfo : api.ServerInfo)
  | connectErr (err : String)
  | fetchJobsOk (jobs : List api.Job)
  | fetchJobsErr (err : String)
  | fetchJobDetailOk (jobDetail : api.JobDetail)
  | fetchJobDetailErr (err : String)
  | fetchBuildDetailOk (buildDetail : api.BuildDetail)
  | fetchBuildDetailErr (err : String)
  | fetchBuildLogOk (buildLog : String)
  | fetchBuildLogErr (err : String)
  | refreshTick
  | key (k : String)
  | windowSize (width height : Int)
  deriving DecidableEq, Repr

/-- Key set of the `Quit` binding in `DefaultKeyMap` (app.go). -/
def quitKeys : List String := ["q", "ctrl+c"]

/-- Key set of the `Help` binding. -/
def helpKeys : List String := ["?"]

/-- Key set of the `Dashboard` binding. -/
def dashboardKeys : List String := ["d"]

/-- Key set of the `Jobs` binding. -/
def jobsKeys : List String := ["j"]

/-- Key set of the `Enter` binding. -/
def enterKeys : List String := ["enter"]

/-- Key set of the `Back` binding. -/
def backKeys : List String := ["esc"]

/-- Embeds `key.Matches(msg, binding)`: the pressed key is one of the
binding's keys. -/
def keyMatches (k : String) (keys : List String) : Bool :=
  keys.contains k

/-- Embeds the `countFreeNodes` helper (app.go lines 543–551). -/
def countFreeNodes (nodes : List api.Node) : Nat :=
  nodes.foldl (fun count node => if node.Online && node.Idle then count + 1 else count) 0

/-- Go `tui.Model` (app.go lines 135–157). The `keys`/`help` fields (static
keymap and the bubbles help widget) and the unused `showFullHelp` /
`loadingMessage` fields are omitted; the `service` pointer is carried as the
service state itself. -/
structure Model where
  currentView : ViewType
  width : Int
  height : Int
  connected : Bool
  serverURL : String
  errorMsg : String
  statusMessage : String
  selectedJob : String
  selectedBuild : Int
  service : JenkinsService
  dashboard : components.DashboardComponent
  jobList : components.JobListComponent
  jobDetail : components.JobDetailComponent
  buildLog : components.BuildLogComponent
  helpView : components.HelpComponent
  deriving DecidableEq, Repr

/-- Embeds `Model.Update` (app.go lines 255–500).

The trailing per-view component dispatch at the bottom of the Go function
forwards the message to the active view component; components ignore every
message except `tea.WindowSizeMsg` (handled earlier with its own return) and
keyboard messages, whose effect is cursor/scroll movement inside the external
bubbles widgets — state this embedding does not carry. That dispatch is
therefore the identity with no commands here, and cases that fall through to
it return the model unchanged. -/
def Model.update (m : Model) (msg : Msg) (now : Int) : Model × List Cmd :=
  match msg with
  | .connectErr e =>
    ({ m with connected := false,
              errorMsg := "Connection error: " ++ e,
              statusMessage := "Connection failed" }, [])
  | .connectOk info =>
    let serverInfo : components.ServerInfo :=
      { URL := info.URL
        Version := info.Version
        Connected := true
        Mode := info.Mode
        Uptime := info.Uptime
        TotalNodes := info.Nodes.length
        FreeNodes := countFreeNodes info.Nodes }
    ({ m with connected := true, serverURL := info.URL,
              statusMessage := "Connected to Jenkins",
              dashboard := m.dashboard.WithServerInfo serverInfo },
     [.fetchJobs])
  | .fetchJobsErr e =>
    ({ m with errorMsg := "Failed to fetch jobs: " ++ e }, [])
  | .fetchJobsOk jobs =>
    let jobItems := jobs.map (fun job =>
      ({ Name := job.Name
         Status := job.Status
         LastBuild := now - 3600 * 1000000000
         JobDesc := job.Description
         URL := job.URL } : components.JobListItem))
    ({ m with jobList := m.jobList.WithJobs jobItems }, [])
  | .fetchJobDetailErr e =>
    ({ m with errorMsg := "Failed to fetch job details: " ++ e }, [])
  | .fetchJobDetailOk jobDetail =>
    let m1 := { m with jobDetail :=
      m.jobDetail.WithJobDetail jobDetail.Name jobDetail.Description jobDetail.URL }
    if jobDetail.Builds.length > 0 then
      let builds := jobDetail.Builds.map (fun build =>
        ({ Number := build.Number
           Status := build.Status
           StartTime := build.StartTime / 1000
           Duration := build.Duration * 1000000 } : components.BuildInfo))
      let m2 := { m1 with jobDetail := m1.jobDetail.WithBuilds builds }
      match jobDetail.LastBuild with
      | some lastBuild =>
        ({ m2 with selectedBuild := lastBuild.Number },
         [.fetchBuildDetail jobDetail.Name lastBuild.Number])
      | none => (m2, [])
    else (m1, [])
  | .fetchBuildDetailErr e =>
    ({ m with errorMsg := "Failed to fetch build details: " ++ e }, [])
  | .fetchBuildDetailOk buildDetail =>
    let lastBuildInfo : components.Build :=
      { Number := buildDetail.Number
        Status := (api.GetStatusFromResult buildDetail.Result buildDetail.Building).asString
        StartTime := buildDetail.StartTime / 1000
        Duration := buildDetail.Duration * 1000000
        Description := buildDetail.Description
        Parameters := buildDetail.Parameters }
    ({ m with jobDetail := m.jobDetail.WithLastBuildInfo lastBuildInfo }, [])
  | .fetchBuildLogErr e =>
    ({ m with errorMsg := "Failed to fetch build log: " ++ e }, [])
  | .fetchBuildLogOk buildLog =>
    let b1 := m.buildLog.WithLog buildLog
    ({ m with buildLog := b1.WithJobAndBuild m.selectedJob m.selectedBuild }, [])
  | .refreshTick =>
    (m, (if m.service.ShouldRefresh now then [Cmd.connect] else [])
          ++ [Cmd.refreshTick (30 * 1000000000)])
  | .windowSize w h =>
    ({ m with width := w, height := h,
              dashboard := { m.dashboard with width := w, height := h },
              jobList := { m.jobList with width := w, height := h },
              jobDetail := { m.jobDetail with width := w, height := h },
              buildLog := { m.buildLog with width := w, height := h, ready := true },
              helpView := { m.helpView with width := w, height := h } }, [])
  | .key k =>
    if keyMatches k quitKeys then
      (m, [.quit])
    else if keyMatches k helpKeys then
      if m.currentView = .HelpView then
        ({ m with currentView := .DashboardView, statusMessage := "Dashboard View" }, [])
      else
        ({ m with currentView := .HelpView, statusMessage := "Help View" }, [])
    else if keyMatches k dashboardKeys then
      ({ m with currentView := .DashboardView, statusMessage := "Dashboard View" }, [])
    else if keyMatches k jobsKeys then
      ({ m with currentView := .JobListView, statusMessage := "Job List View" },
       if m.connected then [.fetchJobs] else [])
    else if keyMatches k enterKeys then
      if m.currentView = .JobListView then
        match m.jobList.GetSelected with
        | some selected =>
          ({ m with selectedJob := selected.Name
                    currentView := .JobDetailView
                    statusMessage := "Job: " ++ selected.Name },
           if m.connected then [.fetchJobDetail selected.Name] else [])
        | none => (m, [])
      else if m.currentView = .JobDetailView then
        match m.jobDetail.GetSelectedBuild with
        | some selected =>
          ({ m with selectedBuild := selected.Number
                    currentView := .BuildLogView
                    statusMessage := "Build #" ++ toString selected.Number ++ " Logs" },
           if m.connected && (m.selectedJob != "") then
             [.fetchBuildLog m.selectedJob selected.Number]
           else [])
        | none => (m, [])
      else (m, [])
    else if keyMatches k backKeys then
      match m.currentView with
      | .JobDetailView =>
        ({ m with currentView := .JobListView, statusMessage := "Job List View" }, [])
      | .BuildLogView =>
        ({ m with currentView := .JobDetailView, statusMessage := "Job Detail View" }, [])
      | .HelpView =>
        ({ m with currentView := .DashboardView, statusMessage := "Dashboard View" }, [])
      | _ => (m, [])
    else (m, [])

end tui

/-! ## Spec-side predicate for the refresh claim

The claim about `ShouldRefresh` states its own threshold rule; to compare it
with the source the rule is written down separately, following the claim's
words, and evaluated against `JenkinsService.ShouldRefresh`. -/

/-- Stated from the spec claim, not from the source: "true exactly when the
elapsed time since the last successful connect exceeds the configured
refresh interval in seconds, where a configured interval ≤ 0 is replaced by
a floor of 1 second". Durations in nanoseconds like the embedding. -/
def claimedShouldRefresh (refreshInterval : Int) (elapsed : Int) : Bool :=
  elapsed > (if refreshInterval ≤ 0 then 1 else refreshInterval) * 1000000000

/-! ## Concrete fixtures used by witnesses and counterexamples -/

/-- A fresh service state as `NewJenkinsService` produces it (no connect
yet), with no configuration loaded. -/
def freshService : tui.JenkinsService :=
  { config := none
    configPath := ""
    connected := false
    lastError := none
    serverInfo := none
    lastRefresh := 0 }

/-- UI settings with the given refresh interval (other fields as in
`config.DefaultConfig`). -/
def testUISettings (interval : Int) : config.UISettings :=
  { Theme := "default", RefreshInterval := interval,
    MaxLogLines := 1000, CompactMode := false }

def testConfig (interval : Int) : config.Config :=
  { Current := "default"
    JenkinsServers := []
    UI := testUISettings interval
    KeyBindings := { Quit := "q", Help := "?", Dashboard := "d",
                     Jobs := "j", Builds := "b", Nodes := "n" } }

def testManager (interval : Int) : config.Manager :=
  { ConfigPath := "", Config := some (testConfig interval) }

/-- A service state whose loaded configuration sets `RefreshInterval` to the
given value, with `lastRefresh` at time 0. -/
def serviceWithInterval (interval : Int) : tui.JenkinsService :=
  { freshService with config := some (testManager interval) }

/-- The initial application model as `tui.New` builds it (empty views,
disconnected, dashboard active). -/
def testModel : tui.Model :=
  { currentView := .DashboardView
    width := 0
    height := 0
    connected := false
    serverURL := ""
    errorMsg := ""
    statusMessage := "Welcome to Jenkins TUI"
    selectedJob := ""
    selectedBuild := 0
    service := freshService
    dashboard := { width := 0, height := 0,
                   serverInfo := { URL := "", Version := "", Connected := false,
                                   Mode := "", Uptime := 0, TotalNodes := 0,
                                   FreeNodes := 0 } }
    jobList := { list := { items := [], cursor := 0 }, width := 0, height := 0 }
    jobDetail := { jobName := "", jobURL := "", description := "",
                   buildList := { items := [], cursor := 0 }, lastBuild := none,
                   width := 0, height := 0 }
    buildLog := { jobName := "", buildNum := 0, log := "", ready := false,
                  width := 0, height := 0 }
    helpView := { width := 0, height := 0 } }

/-- A job-detail payload whose builds list is empty while the last-build
pointer is non-null (build number 5). -/
def detailEmptyBuilds : api.JobDetail :=
  { Name := "demo"
    URL := "http://jenkins/job/demo/"
    Description := ""
    Buildable := true
    Builds := []
    LastBuild := some { Number := 5, URL := "", Status := "", StartTime := 0, Duration := 0 } }

/-- A job-detail payload with one build (number 7) that is also the last
build. -/
def detailOneBuild : api.JobDetail :=
  { Name := "demo"
    URL := "http://jenkins/job/demo/"
    Description := ""
    Buildable := true
    Builds := [{ Number := 7, URL := "", Status := "", StartTime := 0, Duration := 0 }]
    LastBuild := some { Number := 7, URL := "", Status := "", StartTime := 0, Duration := 0 } }

/-! # Theorems for the verified claims -/

/-- C3: for every build result string and building flag,
`api.GetStatusFromResult` yields `running` whenever `building` is true,
regardless of the result; otherwise it maps SUCCESS→success,
FAILURE→failed, ABORTED→aborted, UNSTABLE→failed, NOT_BUILT→waiting, and
any other result to `unknown`. -/
theorem getStatusFromResult_table :
    (∀ result : String, api.GetStatusFromResult result true = .running)
    ∧ api.GetStatusFromResult "SUCCESS" false = .success
    ∧ api.GetStatusFromResult "FAILURE" false = .failed
    ∧ api.GetStatusFromResult "ABORTED" false = .aborted
    ∧ api.GetStatusFromResult "UNSTABLE" false = .failed
    ∧ api.GetStatusFromResult "NOT_BUILT" false = .waiting
    ∧ (∀ result : String,
        result ∉ (["SUCCESS", "FAILURE", "ABORTED", "UNSTABLE", "NOT_BUILT"] : List String) →
        api.GetStatusFromResult result false = .unknown) := by
  refine ⟨fun result => rfl, rfl, rfl, rfl, rfl, rfl, fun result h => ?_⟩
  simp only [List.mem_cons, List.not_mem_nil, or_false, not_or] at h
  obtain ⟨h1, h2, h3, h4, h5⟩ := h
  simp [api.GetStatusFromResult, h1, h2, h3, h4, h5]

/-- Closed instance of `getStatusFromResult_table` discharging its
hypothesis at the unrecognized result string "PENDING". -/
theorem getStatusFromResult_table_witness :
    api.GetStatusFromResult "PENDING" false = .unknown :=
  getStatusFromResult_table.2.2.2.2.2.2 "PENDING" (by decide)

/-- C2: the per-job conversion inside `JenkinsClient.GetJobs` maps each
color token as blue→success, red→failure, yellow→unstable,
grey/disabled→disabled, aborted→aborted, with the `_anime` suffix setting
the in-progress flag, and every unrecognized token to unknown with
in-progress false. -/
theorem getJobs_color_table :
    (∀ ds : List api.JobData, api.GetJobsConvert ds = ds.map api.jobFromData)
    ∧ (∀ d : api.JobData, d.Color = "blue" →
        (api.jobFromData d).Status = "success" ∧ (api.jobFromData d).InProgress = false)
    ∧ (∀ d : api.JobData, d.Color = "blue_anime" →
        (api.jobFromData d).Status = "success" ∧ (api.jobFromData d).InProgress = true)
    ∧ (∀ d : api.JobData, d.Color = "red" →
        (api.jobFromData d).Status = "failure" ∧ (api.jobFromData d).InProgress = false)
    ∧ (∀ d : api.JobData, d.Color = "red_anime" →
        (api.jobFromData d).Status = "failure" ∧ (api.jobFromData d).InProgress = true)
    ∧ (∀ d : api.JobData, d.Color = "yellow" →
        (api.jobFromData d).Status = "unstable" ∧ (api.jobFromData d).InProgress = false)
    ∧ (∀ d : api.JobData, d.Color = "yellow_anime" →
        (api.jobFromData d).Status = "unstable" ∧ (api.jobFromData d).InProgress = true)
    ∧ (∀ d : api.JobData, d.Color = "grey" →
        (api.jobFromData d).Status = "disabled" ∧ (api.jobFromData d).InProgress = false)
    ∧ (∀ d : api.JobData, d.Color = "grey_anime" →
        (api.jobFromData d).Status = "disabled" ∧ (api.jobFromData d).InProgress = true)
    ∧ (∀ d : api.JobData, d.Color = "disabled" →
        (api.jobFromData d).Status = "disabled" ∧ (api.jobFromData d).InProgress = false)
    ∧ (∀ d : api.JobData, d.Color = "disabled_anime" →
        (api.jobFromData d).Status = "disabled" ∧ (api.jobFromData d).InProgress = true)
    ∧ (∀ d : api.JobData, d.Color = "aborted" →
        (api.jobFromData d).Status = "aborted" ∧ (api.jobFromData d).InProgress = false)
    ∧ (∀ d : api.JobData, d.Color = "aborted_anime" →
        (api.jobFromData d).Status = "aborted" ∧ (api.jobFromData d).InProgress = true)
    ∧ (∀ d : api.JobData,
        d.Color ∉ (["blue", "blue_anime", "red", "red_anime", "yellow", "yellow_anime",
                    "grey", "grey_anime", "disabled", "disabled_anime",
                    "aborted", "aborted_anime"] : List String) →
        (api.jobFromData d).Status = "unknown" ∧ (api.jobFromData d).InProgress = false) := by
  refine ⟨fun ds => rfl, ?_, ?_, ?_, ?_, ?_, ?_, ?_, ?_, ?_, ?_, ?_, ?_, ?_⟩
  case _ => intro d h; simp [api.jobFromData, h]
  case _ => intro d h; simp [api.jobFromData, h]
  case _ => intro d h; simp [api.jobFromData, h]
  case _ => intro d h; simp [api.jobFromData, h]
  case _ => intro d h; simp [api.jobFromData, h]
  case _ => intro d h; simp [api.jobFromData, h]
  case _ => intro d h; simp [api.jobFromData, h]
  case _ => intro d h; simp [api.jobFromData, h]
  case _ => intro d h; simp [api.jobFromData, h]
  case _ => intro d h; simp [api.jobFromData, h]
  case _ => intro d h; simp [api.jobFromData, h]
  case _ => intro d h; simp [api.jobFromData, h]
  case _ =>
    intro d h
    simp only [List.mem_cons, List.not_mem_nil, or_false, not_or] at h
    obtain ⟨h1, h2, h3, h4, h5, h6, h7, h8, h9, h10, h11, h12⟩ := h
    simp [api.jobFromData, h1, h2, h3, h4, h5, h6, h7, h8, h9, h10, h11, h12]

/-- Closed instance of `getJobs_color_table` discharging its hypotheses at
the unrecognized color token "purple". -/
theorem getJobs_color_table_witness :
    (api.jobFromData { Name := "j", URL := "u", Color := "purple",
                       Description := "", Class := "" }).Status = "unknown" :=
  (getJobs_color_table.2.2.2.2.2.2.2.2.2.2.2.2.2
    { Name := "j", URL := "u", Color := "purple", Description := "", Class := "" }
    (by decide)).1

/-- C7: `colorizeLogOutput` splits the log into lines and tags each line
according to `classifyLogLine`; classification is the first matching class
in priority order error > warning > command-echo > success > plain (the
class assigned always matches, and no strictly higher-priority class
matches); in particular a line containing both "error" and "success"
case-insensitively is classified error, never success. -/
theorem colorize_priority_first_match :
    (∀ (log line : String) (col : Option String),
        (line, col) ∈ components.colorizeLogOutput log →
        col = components.classColor (components.classifyLogLine line))
    ∧ (∀ line : String,
        components.classMatches line (components.classifyLogLine line) = true)
    ∧ (∀ (line : String) (c : components.LogLineClass),
        components.classMatches line c = true →
        components.classRank (components.classifyLogLine line) ≤ components.classRank c)
    ∧ (∀ line : String,
        strContainsLower line "error" = true →
        strContainsLower line "success" = true →
        components.classifyLogLine line = .error) := by
  refine ⟨?_, ?_, ?_, ?_⟩
  · intro log line col h
    unfold components.colorizeLogOutput at h
    rw [List.mem_map] at h
    obtain ⟨l, -, heq⟩ := h
    simp only [Prod.mk.injEq] at heq
    obtain ⟨rfl, rfl⟩ := heq
    rfl
  · intro line
    by_cases he : components.errorLineMatch line
    · simp [components.classifyLogLine, components.classMatches, he]
    · by_cases hw : components.warningLineMatch line
      · simp [components.classifyLogLine, components.classMatches, he, hw]
      · by_cases hc : components.commandLineMatch line
        · simp [components.classifyLogLine, components.classMatches, he, hw, hc]
        · by_cases hs : components.successLineMatch line
          · simp [components.classifyLogLine, components.classMatches, he, hw, hc, hs]
          · simp [components.classifyLogLine, components.classMatches, he, hw, hc, hs]
  · intro line c hcm
    by_cases he : components.errorLineMatch line
    · cases c <;>
        simp_all [components.classifyLogLine, components.classMatches, components.classRank]
    · by_cases hw : components.warningLineMatch line
      · cases c <;>
          simp_all [components.classifyLogLine, components.classMatches, components.classRank]
      · by_cases hc : components.commandLineMatch line
        · cases c <;>
            simp_all [components.classifyLogLine, components.classMatches, components.classRank]
        · by_cases hs : components.successLineMatch line
          · cases c <;>
              simp_all [components.classifyLogLine, components.classMatches, components.classRank]
          · cases c <;>
              simp_all [components.classifyLogLine, components.classMatches, components.classRank]
  · intro line h1 h2
    have he : components.errorLineMatch line = true := by
      unfold components.errorLineMatch
      simp [h1]
    simp [components.classifyLogLine, he]

/-- Closed instance of `colorize_priority_first_match` discharging its
hypotheses on a line containing both "Error" and "success". -/
theorem colorize_priority_first_match_witness :
    components.classifyLogLine "Error: build finished with success" =
      components.LogLineClass.error :=
  colorize_priority_first_match.2.2.2 "Error: build finished with success"
    (by decide) (by decide)

/-- C8: whenever the server-info liveness check succeeds, `Connect` returns
no error, marks the service connected, stores the server snapshot and
timestamps the refresh — regardless of the outcome of the node enumeration;
a node-enumeration failure is recorded only in `lastError` and the snapshot
is still stored. -/
theorem connect_succeeds_despite_node_failure :
    ∀ (s : tui.JenkinsService) (info : api.ServerInfo)
      (nodesRes : Except String (List api.Node)) (now : Int),
      (s.Connect (.ok info) nodesRes now).2 = none
      ∧ (s.Connect (.ok info) nodesRes now).1.connected = true
      ∧ (s.Connect (.ok info) nodesRes now).1.lastRefresh = now
      ∧ (∀ nodes, nodesRes = .ok nodes →
          (s.Connect (.ok info) nodesRes now).1.serverInfo =
            some { info with Nodes := nodes })
      ∧ (∀ e, nodesRes = .error e →
          (s.Connect (.ok info) nodesRes now).1.serverInfo = some info
          ∧ (s.Connect (.ok info) nodesRes now).1.lastError = some e) := by
  intro s info nodesRes now
  cases nodesRes <;>
    simp [tui.JenkinsService.Connect]

/-- Closed instance of `connect_succeeds_despite_node_failure` discharging
its hypothesis on a failing node enumeration. -/
theorem connect_succeeds_despite_node_failure_witness :
    (freshService.Connect
        (.ok { URL := "http://jenkins", Version := "2.4", Mode := "NORMAL",
               Uptime := 0, Connected := true, Username := "u", Nodes := [] })
        (.error "nodes down") 0).1.lastError = some "nodes down" :=
  ((connect_succeeds_despite_node_failure freshService
      { URL := "http://jenkins", Version := "2.4", Mode := "NORMAL",
        Uptime := 0, Connected := true, Username := "u", Nodes := [] }
      (.error "nodes down") 0).2.2.2.2 "nodes down" rfl).2

/-- C9: every facade operation other than `Connect` invoked while no connect
has succeeded returns the connection error, with a result independent of the
client response — the network layer is not contacted. -/
theorem disconnected_ops_return_connection_error :
    ∀ s : tui.JenkinsService, s.connected = false →
      (∀ r, s.GetJobs r = (s, .error tui.notConnectedErr))
      ∧ (∀ name r, s.GetJobDetails name r = (s, .error tui.notConnectedErr))
      ∧ (∀ name n r, s.GetBuildDetails name n r = (s, .error tui.notConnectedErr))
      ∧ (∀ name n r, s.GetBuildLog name n r = (s, .error tui.notConnectedErr))
      ∧ (∀ name ps r, s.TriggerBuild name ps r = (s, some tui.notConnectedErr))
      ∧ (∀ name n r, s.StopBuild name n r = (s, some tui.notConnectedErr))
      ∧ (∀ name r, s.DeleteJob name r = (s, some tui.notConnectedErr)) := by
  intro s h
  refine ⟨fun r => ?_, fun name r => ?_, fun name n r => ?_, fun name n r => ?_,
          fun name ps r => ?_, fun name n r => ?_, fun name r => ?_⟩ <;>
    simp [tui.JenkinsService.GetJobs, tui.JenkinsService.GetJobDetails,
          tui.JenkinsService.GetBuildDetails, tui.JenkinsService.GetBuildLog,
          tui.JenkinsService.TriggerBuild, tui.JenkinsService.StopBuild,
          tui.JenkinsService.DeleteJob, h]

/-- Closed instance of `disconnected_ops_return_connection_error`
discharging its hypothesis: triggering a build on a fresh (disconnected)
service returns the connection error whatever the client would answer. -/
theorem disconnected_ops_return_connection_error_witness :
    freshService.TriggerBuild "demo" [] (.ok ()) =
      (freshService, some tui.notConnectedErr) :=
  (disconnected_ops_return_connection_error freshService rfl).2.2.2.2.1 "demo" [] (.ok ())

/-- C4, counterexample: with a configured interval of 0 and 5 seconds
elapsed since the last refresh, the claimed rule (floor of 1 second for a
non-positive configured interval) answers true, but the source's
`ShouldRefresh` answers false — the source substitutes 30, not 1. -/
theorem shouldRefresh_floor_counterexample :
    (serviceWithInterval 0).ShouldRefresh 5000000000 = false
    ∧ claimedShouldRefresh 0 (5000000000 - (serviceWithInterval 0).lastRefresh) = true := by
  decide

/-- C4, amended: with a configuration loaded, `ShouldRefresh` returns true
exactly when the elapsed time since the last successful refresh exceeds the
configured interval in seconds, where a configured interval ≤ 0 is replaced
by 30 seconds. -/
theorem shouldRefresh_threshold :
    ∀ (s : tui.JenkinsService) (now : Int) (mgr : config.Manager) (cfg : config.Config),
      s.config = some mgr → mgr.Config = some cfg →
      (s.ShouldRefresh now = true ↔
        now - s.lastRefresh >
          (if cfg.UI.RefreshInterval ≤ 0 then 30 else cfg.UI.RefreshInterval)
            * 1000000000) := by
  intro s now mgr cfg h1 h2
  simp [tui.JenkinsService.ShouldRefresh, h1, h2]

/-- Closed instance of `shouldRefresh_threshold` discharging its hypotheses
at a 30-second interval with 31 seconds elapsed. -/
theorem shouldRefresh_threshold_witness :
    (serviceWithInterval 30).ShouldRefresh 31000000000 = true :=
  (shouldRefresh_threshold (serviceWithInterval 30) 31000000000
      (testManager 30) (testConfig 30) rfl rfl).mpr (by decide)

/-- C1: for every model state, a key matching the Back binding taken in
JobDetailView yields JobListView, in BuildLogView yields JobDetailView and
in HelpView yields DashboardView; a key matching the Help binding taken in
HelpView also yields DashboardView — regardless of all other state. -/
theorem navigation_back_help_invariants :
    ∀ (m : tui.Model) (k : String) (now : Int),
      (tui.keyMatches k tui.backKeys = true →
        (m.currentView = .JobDetailView →
          (m.update (.key k) now).1.currentView = .JobListView)
        ∧ (m.currentView = .BuildLogView →
          (m.update (.key k) now).1.currentView = .JobDetailView)
        ∧ (m.currentView = .HelpView →
          (m.update (.key k) now).1.currentView = .DashboardView))
      ∧ (tui.keyMatches k tui.helpKeys = true →
          m.currentView = .HelpView →
          (m.update (.key k) now).1.currentView = .DashboardView) := by
  intro m k now
  constructor
  · intro hk
    have hke : k = "esc" := by
      simpa [tui.keyMatches, tui.backKeys] using hk
    subst hke
    refine ⟨fun hv => ?_, fun hv => ?_, fun hv => ?_⟩ <;>
      simp [tui.Model.update, tui.keyMatches, tui.quitKeys, tui.helpKeys,
            tui.dashboardKeys, tui.jobsKeys, tui.enterKeys, tui.backKeys, hv]
  · intro hk hv
    have hke : k = "?" := by
      simpa [tui.keyMatches, tui.helpKeys] using hk
    subst hke
    simp [tui.Model.update, tui.keyMatches, tui.quitKeys, tui.helpKeys, hv]

/-- Closed instance of `navigation_back_help_invariants` discharging its
hypotheses: back from BuildLogView lands on JobDetailView. -/
theorem navigation_back_help_invariants_witness :
    (({ testModel with currentView := .BuildLogView } : tui.Model).update
        (.key "esc") 0).1.currentView = tui.ViewType.JobDetailView :=
  ((navigation_back_help_invariants
      { testModel with currentView := .BuildLogView } "esc" 0).1 (by decide)).2.1 rfl

/-- C10: pressing a key matching the Enter binding while the current view is
JobListView and the job list's selected-item accessor returns `none` leaves
the model unchanged and issues no command. -/
theorem enter_without_selection_noop :
    ∀ (m : tui.Model) (k : String) (now : Int),
      tui.keyMatches k tui.enterKeys = true →
      m.currentView = .JobListView →
      m.jobList.GetSelected = none →
      m.update (.key k) now = (m, []) := by
  intro m k now hk hv hsel
  have hke : k = "enter" := by
    simpa [tui.keyMatches, tui.enterKeys] using hk
  subst hke
  simp [tui.Model.update, tui.keyMatches, tui.quitKeys, tui.helpKeys,
        tui.dashboardKeys, tui.jobsKeys, tui.enterKeys, hv, hsel]

/-- Closed instance of `enter_without_selection_noop` discharging its
hypotheses on the initial model (empty job list) placed in JobListView. -/
theorem enter_without_selection_noop_witness :
    ({ testModel with currentView := .JobListView } : tui.Model).update
        (.key "enter") 0 =
      ({ testModel with currentView := .JobListView }, []) :=
  enter_without_selection_noop { testModel with currentView := .JobListView }
    "enter" 0 (by decide) rfl rfl

/-- C5, counterexample: after a failed job-list fetch sets the visible error
message, a job-list fetch result arriving without error leaves the message
exactly as it was — it is not cleared. -/
theorem error_not_cleared_counterexample :
    (((testModel.update (.fetchJobsErr "boom") 0).1.update (.fetchJobsOk []) 0).1.errorMsg
        = "Failed to fetch jobs: boom")
    ∧ ((testModel.update (.fetchJobsErr "boom") 0).1.update
          (.fetchJobsOk []) 0).1.errorMsg ≠ "" := by
  exact ⟨rfl, by decide⟩

/-- C5, amended: every failed fetch overwrites the visible error message
wholesale (the new message does not depend on the previous one, so nothing
is appended), while a fetch result arriving without error leaves the error
message unchanged — it is not cleared. -/
theorem error_overwritten_never_cleared :
    ∀ (m : tui.Model) (e : String) (now : Int),
      ((m.update (.connectErr e) now).1.errorMsg = "Connection error: " ++ e)
      ∧ ((m.update (.fetchJobsErr e) now).1.errorMsg = "Failed to fetch jobs: " ++ e)
      ∧ ((m.update (.fetchJobDetailErr e) now).1.errorMsg
          = "Failed to fetch job details: " ++ e)
      ∧ ((m.update (.fetchBuildDetailErr e) now).1.errorMsg
          = "Failed to fetch build details: " ++ e)
      ∧ ((m.update (.fetchBuildLogErr e) now).1.errorMsg
          = "Failed to fetch build log: " ++ e)
      ∧ (∀ info, (m.update (.connectOk info) now).1.errorMsg = m.errorMsg)
      ∧ (∀ jobs, (m.update (.fetchJobsOk jobs) now).1.errorMsg = m.errorMsg)
      ∧ (∀ jd, (m.update (.fetchJobDetailOk jd) now).1.errorMsg = m.errorMsg)
      ∧ (∀ bd, (m.update (.fetchBuildDetailOk bd) now).1.errorMsg = m.errorMsg)
      ∧ (∀ log, (m.update (.fetchBuildLogOk log) now).1.errorMsg = m.errorMsg) := by
  intro m e now
  refine ⟨rfl, rfl, rfl, rfl, rfl, fun info => rfl, fun jobs => rfl,
          fun jd => ?_, fun bd => rfl, fun log => rfl⟩
  by_cases hb : jd.Builds.length > 0
  · cases hlb : jd.LastBuild <;>
      simp [tui.Model.update, hb, hlb, components.JobDetailComponent.WithJobDetail,
            components.JobDetailComponent.WithBuilds]
  · simp [tui.Model.update, hb, components.JobDetailComponent.WithJobDetail]

/-- C6, counterexample: a job-detail result without error whose builds list
is empty but whose last-build pointer is non-null (build 5 of job "demo")
issues no command at all — in particular no build-detail fetch. -/
theorem lastBuild_fetch_skipped_counterexample :
    detailEmptyBuilds.LastBuild =
      some { Number := 5, URL := "", Status := "", StartTime := 0, Duration := 0 }
    ∧ (testModel.update (.fetchJobDetailOk detailEmptyBuilds) 0).2 = []
    ∧ tui.Cmd.fetchBuildDetail "demo" 5 ∉
        (testModel.update (.fetchJobDetailOk detailEmptyBuilds) 0).2 := by
  exact ⟨rfl, rfl, by decide⟩

/-- C6, amended: every job-detail fetch result without error populates the
job-detail view-state; the asynchronous build-detail fetch for the last
build is issued exactly when the builds list is non-empty and the last-build
pointer is non-null — a result with an empty builds list (or a null
last-build pointer) issues no fetch. -/
theorem jobDetail_populates_and_fetches_lastBuild :
    ∀ (m : tui.Model) (jd : api.JobDetail) (now : Int),
      ((m.update (.fetchJobDetailOk jd) now).1.jobDetail.jobName = jd.Name
       ∧ (m.update (.fetchJobDetailOk jd) now).1.jobDetail.description = jd.Description
       ∧ (m.update (.fetchJobDetailOk jd) now).1.jobDetail.jobURL = jd.URL)
      ∧ (∀ lb, jd.Builds ≠ [] → jd.LastBuild = some lb →
          (m.update (.fetchJobDetailOk jd) now).2
            = [tui.Cmd.fetchBuildDetail jd.Name lb.Number]
          ∧ (m.update (.fetchJobDetailOk jd) now).1.selectedBuild = lb.Number)
      ∧ (jd.Builds = [] → (m.update (.fetchJobDetailOk jd) now).2 = [])
      ∧ (jd.LastBuild = none → (m.update (.fetchJobDetailOk jd) now).2 = []) := by
  intro m jd now
  refine ⟨⟨?_, ?_, ?_⟩, fun lb hne hlb => ?_, fun hemp => ?_, fun hnone => ?_⟩
  · by_cases hb : jd.Builds.length > 0
    · cases hlb : jd.LastBuild <;>
        simp [tui.Model.update, hb, hlb, components.JobDetailComponent.WithJobDetail,
              components.JobDetailComponent.WithBuilds]
    · simp [tui.Model.update, hb, components.JobDetailComponent.WithJobDetail]
  · by_cases hb : jd.Builds.length > 0
    · cases hlb : jd.LastBuild <;>
        simp [tui.Model.update, hb, hlb, components.JobDetailComponent.WithJobDetail,
              components.JobDetailComponent.WithBuilds]
    · simp [tui.Model.update, hb, components.JobDetailComponent.WithJobDetail]
  · by_cases hb : jd.Builds.length > 0
    · cases hlb : jd.LastBuild <;>
        simp [tui.Model.update, hb, hlb, components.JobDetailComponent.WithJobDetail,
              components.JobDetailComponent.WithBuilds]
    · simp [tui.Model.update, hb, components.JobDetailComponent.WithJobDetail]
  · have hb : jd.Builds.length > 0 := by
      cases hB : jd.Builds with
      | nil => exact absurd hB hne
      | cons b bs => simp [hB]
    constructor <;>
      simp [tui.Model.update, hb, hlb, components.JobDetailComponent.WithJobDetail,
            components.JobDetailComponent.WithBuilds]
  · have hb : ¬ jd.Builds.length > 0 := by simp [hemp]
    simp [tui.Model.update, hb, components.JobDetailComponent.WithJobDetail]
  · by_cases hb : jd.Builds.length > 0
    · simp [tui.Model.update, hb, hnone, components.JobDetailComponent.WithJobDetail,
            components.JobDetailComponent.WithBuilds]
    · simp [tui.Model.update, hb, components.JobDetailComponent.WithJobDetail]

/-- Closed instance of `jobDetail_populates_and_fetches_lastBuild`
discharging its hypotheses on a payload with one build (number 7): the
build-detail fetch is issued. -/
theorem jobDetail_populates_and_fetches_lastBuild_witness :
    (testModel.update (.fetchJobDetailOk detailOneBuild) 0).2
      = [tui.Cmd.fetchBuildDetail "demo" 7] :=
  ((jobDetail_populates_and_fetches_lastBuild testModel detailOneBuild 0).2.1
    { Number := 7, URL := "", Status := "", StartTime := 0, Duration := 0 }
    (by decide) rfl).1

end JenkinsTui
